import Mathlib

/-!
Verification of the expression-language evaluator in `src/interpreter.ts`.

The evaluator walks an externally produced AST and returns a runtime value,
given an interpreter state of named variables (`context`) and named host
functions (`functions`).  The embedding below mirrors the TypeScript source
function by function.  JavaScript numbers are modelled as rationals (`Rat`):
this is exact on every integer-valued computation the development exercises;
IEEE-specific values (NaN, signed zero, infinities) are outside the model and
are noted at each definition they would affect.  Host functions are modelled
as pure functions from argument lists to `Except String Value`; the evaluator
is instrumented with a trace (`List String`) that records the callee name of
every host-function invocation, in invocation order, so that claims about
which host functions run (short-circuiting behaviour) are observable.
-/

namespace SuperSpec

/-- Runtime values of the expression language (§ spec "Runtime Value"):
number, string, boolean, `null`, the absence sentinel (`undefined` in the
host language), or an opaque structured object, modelled as an association
list of named fields (first match wins). -/
inductive Value where
  | num (n : Rat)
  | str (s : String)
  | bool (b : Bool)
  | null
  | undefined
  | obj (fields : List (String × Value))
  deriving Repr, Inhabited

/-- JavaScript truthiness (`Boolean(v)`): `0` and the empty string are falsy,
`null`/`undefined` are falsy, objects are truthy.  (JS also makes NaN falsy;
NaN is outside the rational number model.) -/
def truthy : Value → Bool
  | .num n => decide (n ≠ 0)
  | .str s => decide (s ≠ "")
  | .bool b => b
  | .null => false
  | .undefined => false
  | .obj _ => true

/-- The JS loose check `object == null`, true exactly on `null` and
`undefined` (line 121 of the source). -/
def isNullish : Value → Bool
  | .null => true
  | .undefined => true
  | _ => false

/-- The check `typeof v === "number"` (line 162/210 of the source). -/
def isNumber : Value → Bool
  | .num _ => true
  | _ => false

/-- Rendering of a number as JS `String(n)` produces it.  Exact for integral
rationals (the only numbers the claims exercise); non-integral rationals are
rendered as `num/den`, a model stand-in for JS decimal notation. -/
def ratToString (q : Rat) : String :=
  if q.den = 1 then toString q.num else toString q.num ++ "/" ++ toString q.den

/-- JS `String(v)` string conversion, as used by the `+` concatenation
fallback (line 165) and template-literal interpolation (line 212).
Plain objects render as "[object Object]". -/
def jsToString : Value → String
  | .num q => ratToString q
  | .str s => s
  | .bool b => if b then "true" else "false"
  | .null => "null"
  | .undefined => "undefined"
  | .obj _ => "[object Object]"

/-- JS `ToNumber` coercion, as applied by the arithmetic and comparison
operators.  Model boundary: numeric-string parsing and the NaN results for
`undefined`/objects/non-numeric strings are outside the rational model (no
claim touches those paths); such values map to `0` here. -/
def toNumber : Value → Rat
  | .num n => n
  | .bool b => if b then 1 else 0
  | .null => 0
  | .str _ => 0
  | .undefined => 0
  | .obj _ => 0

/-- Truncation toward zero, as JS `%` uses. -/
def ratTrunc (q : Rat) : Int :=
  if 0 ≤ q then q.floor else q.ceil

/-- JS remainder `a % b` (truncated division).  Model boundary: `b = 0`
yields `0` here where JS yields NaN. -/
def jsMod (a b : Rat) : Rat :=
  if b = 0 then 0 else a - b * (ratTrunc (a / b) : Rat)

mutual

/-- Structural equality on runtime values, used below to model `===`. -/
def valueBeq : Value → Value → Bool
  | .num a, .num b => a == b
  | .str a, .str b => a == b
  | .bool a, .bool b => a == b
  | .null, .null => true
  | .undefined, .undefined => true
  | .obj a, .obj b => fieldsBeq a b
  | _, _ => false

/-- Structural equality on object field lists. -/
def fieldsBeq : List (String × Value) → List (String × Value) → Bool
  | [], [] => true
  | (k1, v1) :: r1, (k2, v2) :: r2 => k1 == k2 && valueBeq v1 v2 && fieldsBeq r1 r2
  | _, _ => false

end

/-- JS strict equality `===`: values of different runtime types are never
equal; primitives compare by value.  Model boundary: object identity
(reference equality) is modelled structurally. -/
def jsStrictEq (l r : Value) : Bool :=
  valueBeq l r

/-- First-match lookup in an object's field list. -/
def lookupField : List (String × Value) → String → Option Value
  | [], _ => none
  | (k, v) :: rest, key => if k = key then some v else lookupField rest key

/-- JS `ToPropertyKey` for the computed-access path: the evaluated property
value is coerced to a string key (`obj[1]` reads key `"1"`). -/
def propKey : Value → String := jsToString

/-- Property read `(object)[key]` on a non-nullish value (line 130).  A key
missing from the object yields the absence sentinel `undefined`, not an
error.  Model boundary: property reads on primitives (e.g. `"abc".length`)
are modelled as absent — no claim touches them. -/
def getProp (o : Value) (key : String) : Value :=
  match o with
  | .obj fields =>
    match lookupField fields key with
    | some v => v
    | none => .undefined
  | _ => .undefined

/-- Source type `Context = Record<string, unknown>`: the variable environment, modelled
as an association list where the first match wins. -/
abbrev Context := List (String × Value)

/-- A host-supplied function: takes the evaluated argument list and either
returns a value or throws an error of the host's own (non-`ExpressionError`)
kind, modelled as `Except String`. -/
abbrev HostFn := List Value → Except String Value

/-- Source type `Functions`, a record of named host functions; association list,
first match wins. -/
abbrev Functions := List (String × HostFn)

/-- First-match lookup in a context; `none` models the key being absent
(`!(name in context)`), distinguished from a stored `null`. -/
def ctxLookup : Context → String → Option Value
  | [], _ => none
  | (k, v) :: rest, key => if k = key then some v else ctxLookup rest key

/-- First-match lookup in a function table. -/
def fnLookup : Functions → String → Option HostFn
  | [], _ => none
  | (k, f) :: rest, key => if k = key then some f else fnLookup rest key

/-- Source interface `InterpreterState` (line 22): the variable context and the function
table. -/
structure InterpreterState where
  context : Context
  functions : Functions

/-- Source function `createInterpreterState` (line 33). -/
def createInterpreterState (context : Context) (functions : Functions) :
    InterpreterState :=
  { context := context, functions := functions }

/-- Source function `setFunction` (line 50): returns a new state whose function table is the
old one with `name` now bound to `fn` (the JS spread `{...state.functions,
[name]: fn}` makes the new binding shadow any old one; here the new pair is
consed in front of a first-match list). -/
def setFunction (state : InterpreterState) (name : String) (fn : HostFn) :
    InterpreterState :=
  { state with functions := (name, fn) :: state.functions }

/-- The JS spread merge `{...base, ...override}` (line 83): override keys
take precedence.  With first-match lookup, putting the override entries in
front realises exactly that shadowing. -/
def mergeContext (base override : Context) : Context :=
  override ++ base

/-- Evaluation errors: `expr` is the evaluator's own `ExpressionError`
taxonomy (carrying its message); `host` is any error thrown by a
host-supplied function implementation, which the evaluator never wraps. -/
inductive EvalError where
  | expr (msg : String)
  | host (msg : String)
  deriving Repr, DecidableEq

/-- The `try/catch` at the dispatch boundary (lines 266-271): an
`ExpressionError` is re-raised with the added "Evaluation error: " context
prefix; any other error (a host function's own failure) is re-thrown
unchanged. -/
def wrapErr : Except EvalError Value → Except EvalError Value
  | .error (.expr msg) => .error (.expr ("Evaluation error: " ++ msg))
  | r => r

/-- The operator switch of `evaluateBinaryExpression` (lines 160-192),
applied after both operands have been evaluated.  `+` adds when both
operands are numbers and otherwise concatenates the string representations;
`&&`/`||` are the JS operand-selecting operators (`l && r` is `r` when `l`
is truthy and `l` otherwise); an unrecognised operator token throws. -/
def applyBinary (op : String) (l r : Value) : Except EvalError Value :=
  match op with
  | "+" =>
    match l, r with
    | .num a, .num b => .ok (.num (a + b))
    | _, _ => .ok (.str (jsToString l ++ jsToString r))
  | "-" => .ok (.num (toNumber l - toNumber r))
  | "*" => .ok (.num (toNumber l * toNumber r))
  | "/" => .ok (.num (toNumber l / toNumber r))
  | "%" => .ok (.num (jsMod (toNumber l) (toNumber r)))
  | "===" => .ok (.bool (jsStrictEq l r))
  | "!==" => .ok (.bool (!jsStrictEq l r))
  | ">" => .ok (.bool (decide (toNumber r < toNumber l)))
  | ">=" => .ok (.bool (decide (toNumber r ≤ toNumber l)))
  | "<" => .ok (.bool (decide (toNumber l < toNumber r)))
  | "<=" => .ok (.bool (decide (toNumber l ≤ toNumber r)))
  | "&&" => .ok (if truthy l then r else l)
  | "||" => .ok (if truthy l then l else r)
  | _ => .error (.expr ("Unknown operator: " ++ op))

/-- The post-evaluation part of `evaluateUnaryExpression` (lines 205-223):
only the prefix form is supported; `!` negates truthiness; `-` requires a
number (the thrown message interpolates the argument via `String(v)`); a
non-prefix operator is rejected.  The TS field is named `prefix`; it is
called `pfx` here. -/
def applyUnary (op : String) (pfx : Bool) (v : Value) : Except EvalError Value :=
  if pfx then
    match op with
    | "!" => .ok (.bool (!truthy v))
    | "-" =>
      match v with
      | .num q => .ok (.num (-q))
      | _ => .error (.expr ("Cannot apply unary - to non-number: " ++ jsToString v))
    | _ => .error (.expr ("Unknown operator: " ++ op))
  else
    .error (.expr ("Postfix operators are not supported: " ++ op))

/-- The payload of a `Literal` node: `number | string | boolean | null`. -/
inductive LitValue where
  | num (n : Rat)
  | str (s : String)
  | bool (b : Bool)
  | null
  deriving Repr, DecidableEq

/-- Injection of a literal payload into runtime values (what
`evaluateLiteral`, line 95, returns verbatim). -/
def LitValue.toValue : LitValue → Value
  | .num n => .num n
  | .str s => .str s
  | .bool b => .bool b
  | .null => .null

/-- The AST node variants consumed by the evaluator (the parser's
`Expression` union).  A `CallExpression`'s callee is an identifier; only its
name is consulted, so it is stored as a `String`.  The `UnaryExpression`
field named `prefix` in TS is `pfx` here. -/
inductive Expression where
  | literal (value : LitValue)
  | identifier (name : String)
  | member (object : Expression) (property : Expression) (computed : Bool)
  | call (callee : String) (args : List Expression)
  | binary (operator : String) (left right : Expression)
  | unary (operator : String) (pfx : Bool) (argument : Expression)
  | conditional (test consequent alternate : Expression)
  deriving Repr

/-- Source node `Program`: the AST root, wrapping one top-level expression in its body field. -/
structure Program where
  body : Expression

/-- The static-key path of `evaluateMemberExpression` (line 127):
`(node.property as Identifier).name`.  On a non-identifier node the JS cast
yields `undefined` for `.name`, which then stringifies to "undefined" as a
key. -/
def staticKey : Expression → String
  | .identifier n => n
  | _ => "undefined"

/-- The instrumentation trace: callee names of host-function invocations, in
invocation order. -/
abbrev Trace := List String

mutual

/-- Source function `evaluateNode` (line 244): dispatch on the node kind, wrapped by the
`try/catch` that re-raises `ExpressionError`s with an added context prefix
and lets host errors pass through (`wrapErr`). -/
def evaluateNode (st : InterpreterState) (e : Expression) (tr : Trace) :
    Except EvalError Value × Trace :=
  let res := evalDispatch st e tr
  (wrapErr res.1, res.2)

/-- The body of the `switch` in `evaluateNode`, one arm per node kind,
inlining the per-kind closures of the source:
`evaluateLiteral` (line 95), `evaluateIdentifier` (line 105),
`evaluateMemberExpression` (line 119), `evaluateCallExpression` (line 139),
`evaluateBinaryExpression` (line 156), `evaluateUnaryExpression` (line 202),
`evaluateConditionalExpression` (line 232). -/
def evalDispatch (st : InterpreterState) (e : Expression) (tr : Trace) :
    Except EvalError Value × Trace :=
  match e with
  | .literal v => (.ok v.toValue, tr)
  | .identifier name =>
    match ctxLookup st.context name with
    | some v => (.ok v, tr)
    | none => (.error (.expr ("Undefined variable: " ++ name)), tr)
  | .member object property computed =>
    match evaluateNode st object tr with
    | (.ok ov, tr1) =>
      if isNullish ov then
        (.error (.expr "Cannot access property of null or undefined"), tr1)
      else
        if computed then
          match evaluateNode st property tr1 with
          | (.ok pv, tr2) => (.ok (getProp ov (propKey pv)), tr2)
          | (.error err, tr2) => (.error err, tr2)
        else
          (.ok (getProp ov (staticKey property)), tr1)
    | (.error err, tr1) => (.error err, tr1)
  | .call callee args =>
    match fnLookup st.functions callee with
    | none => (.error (.expr ("Undefined function: " ++ callee)), tr)
    | some fn =>
      match evaluateArgs st args tr with
      | (.ok vs, tr1) =>
        match fn vs with
        | .ok v => (.ok v, tr1 ++ [callee])
        | .error m => (.error (.host m), tr1 ++ [callee])
      | (.error err, tr1) => (.error err, tr1)
  | .binary op left right =>
    match evaluateNode st left tr with
    | (.ok lv, tr1) =>
      match evaluateNode st right tr1 with
      | (.ok rv, tr2) => (applyBinary op lv rv, tr2)
      | (.error err, tr2) => (.error err, tr2)
    | (.error err, tr1) => (.error err, tr1)
  | .unary op pfx argument =>
    match evaluateNode st argument tr with
    | (.ok av, tr1) => (applyUnary op pfx av, tr1)
    | (.error err, tr1) => (.error err, tr1)
  | .conditional test consequent alternate =>
    match evaluateNode st test tr with
    | (.ok tv, tr1) =>
      if truthy tv then evaluateNode st consequent tr1
      else evaluateNode st alternate tr1
    | (.error err, tr1) => (.error err, tr1)

/-- Left-to-right evaluation of a call's argument list
(`node.arguments.map(arg => evaluateNode(arg))`, line 145); the first error
aborts the remaining arguments. -/
def evaluateArgs (st : InterpreterState) (es : List Expression) (tr : Trace) :
    Except EvalError (List Value) × Trace :=
  match es with
  | [] => (.ok [], tr)
  | e :: rest =>
    match evaluateNode st e tr with
    | (.ok v, tr1) =>
      match evaluateArgs st rest tr1 with
      | (.ok vs, tr2) => (.ok (v :: vs), tr2)
      | (.error err, tr2) => (.error err, tr2)
    | (.error err, tr1) => (.error err, tr1)

end

/-- Source entry point `evaluate` (line 74): if a context override is supplied, the whole call
runs against an effective state whose context is the override merged over
`state.context` (override wins) and whose function table is unchanged;
otherwise the state is used as given.  Returns the result paired with the
host-invocation trace (instrumentation). -/
def evaluate (ast : Program) (state : InterpreterState)
    (context : Option Context) : Except EvalError Value × Trace :=
  let evaluationState :=
    match context with
    | some c => { state with context := mergeContext state.context c }
    | none => state
  evaluateNode evaluationState ast.body []


/-- Lookup distributes over list append: the first list is consulted first,
the second only when the key is absent from the first. -/
theorem ctxLookup_append (a b : Context) (k : String) :
    ctxLookup (a ++ b) k =
      match ctxLookup a k with
      | some v => some v
      | none => ctxLookup b k := by
  induction a with
  | nil => simp [ctxLookup]
  | cons p rest ih =>
    obtain ⟨k1, v1⟩ := p
    by_cases h : k1 = k <;> simp [ctxLookup, h, ih]

/-- C5: evaluating an `Identifier` looks the name up in the effective
context; a present key (even one storing `null`) resolves to its stored
value, while an absent key fails with the `UndefinedVariable` error
(wrapped once with the dispatch-frame context prefix). -/
theorem identifier_evaluation_spec (st : InterpreterState) (n : String) (tr : Trace) :
    (∀ v : Value, ctxLookup st.context n = some v →
      evaluateNode st (.identifier n) tr = (.ok v, tr)) ∧
    (ctxLookup st.context n = none →
      evaluateNode st (.identifier n) tr =
        (.error (.expr ("Evaluation error: " ++ ("Undefined variable: " ++ n))), tr)) := by
  constructor
  · intro v h
    simp [evaluateNode, evalDispatch, h, wrapErr]
  · intro h
    simp [evaluateNode, evalDispatch, h, wrapErr]

/-- Witness for C5 at a concrete context: `x ↦ 1` resolves, `z ↦ null`
resolves to `null`, and the absent `y` fails with `UndefinedVariable`. -/
theorem identifier_evaluation_spec_witness :
    evaluateNode (createInterpreterState [("x", .num 1), ("z", .null)] [])
      (.identifier "x") [] = (.ok (.num 1), []) ∧
    evaluateNode (createInterpreterState [("x", .num 1), ("z", .null)] [])
      (.identifier "z") [] = (.ok .null, []) ∧
    evaluateNode (createInterpreterState [("x", .num 1), ("z", .null)] [])
      (.identifier "y") [] =
      (.error (.expr "Evaluation error: Undefined variable: y"), []) := by
  refine ⟨(identifier_evaluation_spec _ "x" []).1 (.num 1) (by simp [createInterpreterState, ctxLookup]),
          (identifier_evaluation_spec _ "z" []).1 .null (by simp [createInterpreterState, ctxLookup]),
          ?_⟩
  have h := (identifier_evaluation_spec (createInterpreterState [("x", .num 1), ("z", .null)] [])
      "y" []).2 (by simp [createInterpreterState, ctxLookup])
  rw [h]
  rfl

/-- C7: `setFunction` returns a state whose function mapping agrees with the
input's everywhere except at the new name, which now maps to the new
function (inserted or overwritten); the context is untouched.  The input
state value itself is immutable in the embedding, matching the
copy-not-mutate contract of the source. -/
theorem setFunction_functional_update (s1 : InterpreterState) (n : String) (fn : HostFn) :
    (∀ k, fnLookup (setFunction s1 n fn).functions k =
      if k = n then some fn else fnLookup s1.functions k) ∧
    (setFunction s1 n fn).context = s1.context := by
  constructor
  · intro k
    rcases eq_or_ne k n with h | h
    · subst h
      simp [setFunction, fnLookup]
    · simp [setFunction, fnLookup, h, Ne.symm h]
  · rfl

/-- C8: with a context override supplied, the whole evaluation runs against
an effective state whose context is the override merged over the state's
context — override keys win, other keys keep their original values — and
whose function table is exactly the input's. -/
theorem evaluate_context_override (ast : Program) (st : InterpreterState) (ov : Context) :
    evaluate ast st (some ov) =
      evaluateNode { context := mergeContext st.context ov, functions := st.functions }
        ast.body [] ∧
    (∀ k, ctxLookup (mergeContext st.context ov) k =
      match ctxLookup ov k with
      | some v => some v
      | none => ctxLookup st.context k) ∧
    ({ context := mergeContext st.context ov, functions := st.functions }
      : InterpreterState).functions = st.functions := by
  refine ⟨rfl, ?_, rfl⟩
  intro k
  exact ctxLookup_append ov st.context k

/-- C2: for a `+` binary node whose operands evaluate successfully, the
result is the numeric sum when both operand values are numbers and otherwise
the concatenation of their string representations; the `+` arm itself never
raises an error. -/
theorem binary_plus_spec (st : InterpreterState) (l r : Expression)
    (tr tr1 tr2 : Trace) (lv rv : Value)
    (hl : evaluateNode st l tr = (.ok lv, tr1))
    (hr : evaluateNode st r tr1 = (.ok rv, tr2)) :
    (∀ a b : Rat, lv = .num a → rv = .num b →
      evaluateNode st (.binary "+" l r) tr = (.ok (.num (a + b)), tr2)) ∧
    ((isNumber lv = false ∨ isNumber rv = false) →
      evaluateNode st (.binary "+" l r) tr =
        (.ok (.str (jsToString lv ++ jsToString rv)), tr2)) := by
  constructor
  · rintro a b rfl rfl
    simp [evaluateNode, evalDispatch, hl, hr, applyBinary, wrapErr]
  · intro hn
    cases lv <;> cases rv <;>
      simp_all [isNumber, evaluateNode, evalDispatch, hl, hr, applyBinary, wrapErr]

/-- Witness for C2: `1 + 2` gives the number `3`, `"a" + 1` gives the string
"a1", and `1 + "a"` gives the string "1a". -/
theorem binary_plus_spec_witness :
    evaluateNode (createInterpreterState [] [])
      (.binary "+" (.literal (.num 1)) (.literal (.num 2))) [] = (.ok (.num 3), []) ∧
    evaluateNode (createInterpreterState [] [])
      (.binary "+" (.literal (.str "a")) (.literal (.num 1))) [] = (.ok (.str "a1"), []) ∧
    evaluateNode (createInterpreterState [] [])
      (.binary "+" (.literal (.num 1)) (.literal (.str "a"))) [] = (.ok (.str "1a"), []) := by
  refine ⟨?_, ?_, ?_⟩
  · have h := (binary_plus_spec (createInterpreterState [] [])
      (.literal (.num 1)) (.literal (.num 2)) [] [] [] (.num 1) (.num 2)
      (by simp [evaluateNode, evalDispatch, wrapErr, LitValue.toValue])
      (by simp [evaluateNode, evalDispatch, wrapErr, LitValue.toValue])).1 1 2 rfl rfl
    rw [h]
    norm_num
  · have h := (binary_plus_spec (createInterpreterState [] [])
      (.literal (.str "a")) (.literal (.num 1)) [] [] [] (.str "a") (.num 1)
      (by simp [evaluateNode, evalDispatch, wrapErr, LitValue.toValue])
      (by simp [evaluateNode, evalDispatch, wrapErr, LitValue.toValue])).2 (Or.inl rfl)
    rw [h]
    rfl
  · have h := (binary_plus_spec (createInterpreterState [] [])
      (.literal (.num 1)) (.literal (.str "a")) [] [] [] (.num 1) (.str "a")
      (by simp [evaluateNode, evalDispatch, wrapErr, LitValue.toValue])
      (by simp [evaluateNode, evalDispatch, wrapErr, LitValue.toValue])).2 (Or.inr rfl)
    rw [h]
    rfl

/-- Counterexample for C1 as stated: the code returns the JS value of
`left && right`, not the boolean conjunction of the operands' truthiness.
`2 && 3` evaluates to the number `3`, whereas applying logical AND to the
coerced truthiness of both operands would give the boolean `true`.  (The
TypeScript `as boolean` casts on line 187 are compile-time-only; at runtime
the operand value itself is returned.) -/
theorem logical_and_result_counterexample :
    (evaluate { body := .binary "&&" (.literal (.num 2)) (.literal (.num 3)) }
      (createInterpreterState [] []) none).1 = .ok (.num 3) ∧
    (Except.ok (Value.num 3) : Except EvalError Value) ≠ .ok (.bool true) := by
  constructor
  · simp [evaluate, evaluateNode, evalDispatch, applyBinary, wrapErr, truthy,
      createInterpreterState, LitValue.toValue]
  · simp

/-- C1 amended: for `&&`/`||` both operands are always evaluated, left then
right, with no short-circuiting — the right operand's host-function
invocations happen (and its trace effects land in the result) even when the
left operand's truthiness already decides the outcome.  The returned value
follows JS operand selection: `l && r` is `r` when `l` is truthy and `l`
otherwise; `l || r` is `l` when `l` is truthy and `r` otherwise (which
coincides with boolean AND/OR when both operand values are booleans). -/
theorem logical_ops_no_short_circuit (st : InterpreterState) (l r : Expression)
    (tr tr1 tr2 : Trace) (lv rv : Value)
    (hl : evaluateNode st l tr = (.ok lv, tr1))
    (hr : evaluateNode st r tr1 = (.ok rv, tr2)) :
    evaluateNode st (.binary "&&" l r) tr =
      (.ok (if truthy lv then rv else lv), tr2) ∧
    evaluateNode st (.binary "||" l r) tr =
      (.ok (if truthy lv then lv else rv), tr2) := by
  constructor <;> simp [evaluateNode, evalDispatch, hl, hr, applyBinary, wrapErr]

/-- Witness for the amended C1: with a counting host function as the right
operand, `false && @tick()` evaluates `tick` (its name lands in the trace)
even though the left operand already decides the conjunction, and
`true || @tock()` evaluates `tock` likewise. -/
theorem logical_ops_no_short_circuit_witness :
    evaluateNode
      (createInterpreterState [] [("tick", fun _ => Except.ok (Value.bool false))])
      (.binary "&&" (.literal (.bool false)) (.call "tick" [])) [] =
      (.ok (.bool false), ["tick"]) ∧
    evaluateNode
      (createInterpreterState [] [("tock", fun _ => Except.ok (Value.bool true))])
      (.binary "||" (.literal (.bool true)) (.call "tock" [])) [] =
      (.ok (.bool true), ["tock"]) := by
  constructor
  · have h := (logical_ops_no_short_circuit
      (createInterpreterState [] [("tick", fun _ => Except.ok (Value.bool false))])
      (.literal (.bool false)) (.call "tick" []) [] [] ["tick"]
      (.bool false) (.bool false)
      (by simp [evaluateNode, evalDispatch, wrapErr, LitValue.toValue])
      (by simp [evaluateNode, evalDispatch, evaluateArgs, wrapErr, fnLookup,
        createInterpreterState])).1
    rw [h]
    rfl
  · have h := (logical_ops_no_short_circuit
      (createInterpreterState [] [("tock", fun _ => Except.ok (Value.bool true))])
      (.literal (.bool true)) (.call "tock" []) [] [] ["tock"]
      (.bool true) (.bool true)
      (by simp [evaluateNode, evalDispatch, wrapErr, LitValue.toValue])
      (by simp [evaluateNode, evalDispatch, evaluateArgs, wrapErr, fnLookup,
        createInterpreterState])).2
    rw [h]
    rfl

/-- C3: a conditional evaluates its test, coerces it to truthiness, and then
evaluates exactly one branch; the untaken branch is universally quantified
and absent from the result, so it is never evaluated and contributes no
host-function invocations.  The taken branch's result passes through the
conditional frame's error wrap. -/
theorem conditional_short_circuit (st : InterpreterState) (t b : Expression)
    (tr tr1 : Trace) (tv : Value)
    (ht : evaluateNode st t tr = (.ok tv, tr1)) :
    (truthy tv = false → ∀ c : Expression,
      evaluateNode st (.conditional t c b) tr =
        (wrapErr (evaluateNode st b tr1).1, (evaluateNode st b tr1).2)) ∧
    (truthy tv = true → ∀ a : Expression,
      evaluateNode st (.conditional t b a) tr =
        (wrapErr (evaluateNode st b tr1).1, (evaluateNode st b tr1).2)) := by
  constructor <;> intro h c <;>
    simp [evaluateNode, evalDispatch, ht, h]

/-- Witness for C3: `false ? @boom() : 5` returns `5` with an empty
invocation trace — the throwing host function `boom` is never invoked. -/
theorem conditional_short_circuit_witness :
    evaluateNode
      (createInterpreterState [] [("boom", fun _ => Except.error "boom")])
      (.conditional (.literal (.bool false)) (.call "boom" []) (.literal (.num 5)))
      [] = (.ok (.num 5), []) := by
  have h := (conditional_short_circuit
      (createInterpreterState [] [("boom", fun _ => Except.error "boom")])
      (.literal (.bool false)) (.literal (.num 5)) [] [] (.bool false)
      (by simp [evaluateNode, evalDispatch, wrapErr, LitValue.toValue])).1
      rfl (.call "boom" [])
  rw [h]
  simp [evaluateNode, evalDispatch, wrapErr, LitValue.toValue]

/-- C9: for a prefix unary expression whose argument evaluates to a value,
`!` returns the negated truthiness of any argument, `-` returns the
arithmetic negation of a numeric argument and fails with
`NonNumericNegation` on a non-numeric one, and any non-prefix (postfix)
unary expression fails with `UnsupportedPostfix`. -/
theorem unary_prefix_spec (st : InterpreterState) (e : Expression)
    (tr tr1 : Trace) (v : Value)
    (h : evaluateNode st e tr = (.ok v, tr1)) :
    (evaluateNode st (.unary "!" true e) tr = (.ok (.bool (!truthy v)), tr1)) ∧
    (∀ q : Rat, v = .num q →
      evaluateNode st (.unary "-" true e) tr = (.ok (.num (-q)), tr1)) ∧
    (isNumber v = false →
      evaluateNode st (.unary "-" true e) tr =
        (.error (.expr ("Evaluation error: " ++
          ("Cannot apply unary - to non-number: " ++ jsToString v))), tr1)) ∧
    (∀ op : String, evaluateNode st (.unary op false e) tr =
      (.error (.expr ("Evaluation error: " ++
        ("Postfix operators are not supported: " ++ op))), tr1)) := by
  refine ⟨?_, ?_, ?_, ?_⟩
  · simp [evaluateNode, evalDispatch, h, applyUnary, wrapErr]
  · rintro q rfl
    simp [evaluateNode, evalDispatch, h, applyUnary, wrapErr]
  · intro hn
    cases v <;> simp_all [isNumber] <;>
      simp [evaluateNode, evalDispatch, h, applyUnary, wrapErr]
  · intro op
    simp [evaluateNode, evalDispatch, h, applyUnary, wrapErr]

/-- Witness for C9: `!0` is `true`, `-(2)` is `-2`, `-("a")` fails with
`NonNumericNegation` naming the stringified argument, and a postfix `!` on a
literal fails with `UnsupportedPostfix`. -/
theorem unary_prefix_spec_witness :
    evaluateNode (createInterpreterState [] [])
      (.unary "!" true (.literal (.num 0))) [] = (.ok (.bool true), []) ∧
    evaluateNode (createInterpreterState [] [])
      (.unary "-" true (.literal (.num 2))) [] = (.ok (.num (-2)), []) ∧
    evaluateNode (createInterpreterState [] [])
      (.unary "-" true (.literal (.str "a"))) [] =
      (.error (.expr "Evaluation error: Cannot apply unary - to non-number: a"), []) ∧
    evaluateNode (createInterpreterState [] [])
      (.unary "!" false (.literal (.num 1))) [] =
      (.error (.expr "Evaluation error: Postfix operators are not supported: !"), []) := by
  refine ⟨?_, ?_, ?_, ?_⟩
  · have h := (unary_prefix_spec (createInterpreterState [] [])
      (.literal (.num 0)) [] [] (.num 0)
      (by simp [evaluateNode, evalDispatch, wrapErr, LitValue.toValue])).1
    rw [h]
    rfl
  · have h := (unary_prefix_spec (createInterpreterState [] [])
      (.literal (.num 2)) [] [] (.num 2)
      (by simp [evaluateNode, evalDispatch, wrapErr, LitValue.toValue])).2.1 2 rfl
    rw [h]
  · have h := (unary_prefix_spec (createInterpreterState [] [])
      (.literal (.str "a")) [] [] (.str "a")
      (by simp [evaluateNode, evalDispatch, wrapErr, LitValue.toValue])).2.2.1 rfl
    rw [h]
    rfl
  · have h := (unary_prefix_spec (createInterpreterState [] [])
      (.literal (.num 1)) [] [] (.num 1)
      (by simp [evaluateNode, evalDispatch, wrapErr, LitValue.toValue])).2.2.2 "!"
    rw [h]
    rfl

/-- C4: member access evaluates the object first and fails with
`NullPropertyAccess` when it is `null` or the absence sentinel; otherwise
the key is the evaluated property expression (string-coerced) when
`computed` is true and the identifier's literal name when `computed` is
false, and a key missing from the (non-null) object yields the absence
sentinel rather than an error. -/
theorem member_access_spec (st : InterpreterState) (obj prop : Expression)
    (tr : Trace) :
    (∀ (tr1 : Trace) (ov : Value) (c : Bool),
      evaluateNode st obj tr = (.ok ov, tr1) → isNullish ov = true →
      evaluateNode st (.member obj prop c) tr =
        (.error (.expr ("Evaluation error: " ++
          "Cannot access property of null or undefined")), tr1)) ∧
    (∀ (tr1 : Trace) (ov : Value) (tr2 : Trace) (pv : Value),
      evaluateNode st obj tr = (.ok ov, tr1) → isNullish ov = false →
      evaluateNode st prop tr1 = (.ok pv, tr2) →
      evaluateNode st (.member obj prop true) tr =
        (.ok (getProp ov (propKey pv)), tr2)) ∧
    (∀ (tr1 : Trace) (ov : Value),
      evaluateNode st obj tr = (.ok ov, tr1) → isNullish ov = false →
      evaluateNode st (.member obj prop false) tr =
        (.ok (getProp ov (staticKey prop)), tr1)) ∧
    (∀ (fields : List (String × Value)) (k : String),
      lookupField fields k = none → getProp (.obj fields) k = .undefined) := by
  refine ⟨?_, ?_, ?_, ?_⟩
  · intro tr1 ov c ho hn
    simp [evaluateNode, evalDispatch, ho, hn, wrapErr]
  · intro tr1 ov tr2 pv ho hn hp
    simp [evaluateNode, evalDispatch, ho, hn, hp, wrapErr]
  · intro tr1 ov ho hn
    simp [evaluateNode, evalDispatch, ho, hn, wrapErr]
  · intro fields k hk
    simp [getProp, hk]

/-- Witness for C4 with context `data ↦ {value: 42}` and `nothing ↦ null`:
`data.value` is `42`, `data["value"]` (computed) is `42`, member access on
the null-valued identifier fails with `NullPropertyAccess`, and a missing
key on the object reads as the absence sentinel. -/
theorem member_access_spec_witness :
    evaluateNode
      (createInterpreterState
        [("data", .obj [("value", .num 42)]), ("nothing", .null)] [])
      (.member (.identifier "data") (.identifier "value") false) [] =
      (.ok (.num 42), []) ∧
    evaluateNode
      (createInterpreterState
        [("data", .obj [("value", .num 42)]), ("nothing", .null)] [])
      (.member (.identifier "data") (.literal (.str "value")) true) [] =
      (.ok (.num 42), []) ∧
    evaluateNode
      (createInterpreterState
        [("data", .obj [("value", .num 42)]), ("nothing", .null)] [])
      (.member (.identifier "nothing") (.identifier "value") false) [] =
      (.error (.expr "Evaluation error: Cannot access property of null or undefined"), []) ∧
    getProp (.obj [("value", .num 42)]) "missing" = .undefined := by
  refine ⟨?_, ?_, ?_, ?_⟩
  · have h := (member_access_spec
      (createInterpreterState
        [("data", .obj [("value", .num 42)]), ("nothing", .null)] [])
      (.identifier "data") (.identifier "value") []).2.2.1 []
      (.obj [("value", .num 42)])
      (by simp [evaluateNode, evalDispatch, ctxLookup, createInterpreterState, wrapErr])
      rfl
    rw [h]
    rfl
  · have h := (member_access_spec
      (createInterpreterState
        [("data", .obj [("value", .num 42)]), ("nothing", .null)] [])
      (.identifier "data") (.literal (.str "value")) []).2.1 []
      (.obj [("value", .num 42)]) [] (.str "value")
      (by simp [evaluateNode, evalDispatch, ctxLookup, createInterpreterState, wrapErr])
      rfl
      (by simp [evaluateNode, evalDispatch, wrapErr, LitValue.toValue])
    rw [h]
    rfl
  · have h := (member_access_spec
      (createInterpreterState
        [("data", .obj [("value", .num 42)]), ("nothing", .null)] [])
      (.identifier "nothing") (.identifier "value") []).1 [] .null false
      (by simp [evaluateNode, evalDispatch, ctxLookup, createInterpreterState, wrapErr])
      rfl
    rw [h]
    rfl
  · exact (member_access_spec (createInterpreterState [] [])
      (.literal .null) (.literal .null) []).2.2.2 [("value", .num 42)] "missing"
      (by simp [lookupField])

/-- C10: a call whose callee is absent from the function table fails with
`UndefinedFunction` immediately: the result does not depend on the argument
list, and the returned trace is the incoming trace unchanged, so no argument
subtree is evaluated and no host function is invoked from an argument. -/
theorem undefined_function_call_spec (st : InterpreterState) (f : String)
    (args : List Expression) (tr : Trace)
    (h : fnLookup st.functions f = none) :
    evaluateNode st (.call f args) tr =
      (.error (.expr ("Evaluation error: " ++ ("Undefined function: " ++ f))), tr) := by
  simp [evaluateNode, evalDispatch, h, wrapErr]

/-- Witness for C10: calling unregistered `nope` with an argument that is
itself a call to the registered function `tick` fails with
`UndefinedFunction` and leaves the trace empty — `tick` is never invoked. -/
theorem undefined_function_call_spec_witness :
    evaluateNode
      (createInterpreterState [] [("tick", fun _ => Except.ok (Value.num 1))])
      (.call "nope" [.call "tick" []]) [] =
      (.error (.expr "Evaluation error: Undefined function: nope"), []) := by
  have h := undefined_function_call_spec
      (createInterpreterState [] [("tick", fun _ => Except.ok (Value.num 1))])
      "nope" [.call "tick" []] []
      (by simp [createInterpreterState, fnLookup])
  rw [h]
  rfl

/-- C6: errors raised by host-supplied function implementations propagate
unwrapped and unreclassified, while the per-frame catch rewraps only the
evaluator's own `ExpressionError` kind, adding the "Evaluation error: "
context prefix as evaluation unwinds.  Conjuncts: the wrap step fixes host
errors and prefixes evaluator errors; every node evaluation is exactly the
dispatch result passed through that wrap; a host function that throws
surfaces as an unwrapped host error at its call frame; a host error crosses
an enclosing frame unchanged while an evaluator error gains one more
prefix. -/
theorem host_error_propagation_spec :
    (∀ m : String, wrapErr (.error (.host m)) = .error (.host m)) ∧
    (∀ msg : String, wrapErr (.error (.expr msg)) =
      .error (.expr ("Evaluation error: " ++ msg))) ∧
    (∀ (st : InterpreterState) (e : Expression) (tr : Trace),
      evaluateNode st e tr =
        (wrapErr (evalDispatch st e tr).1, (evalDispatch st e tr).2)) ∧
    (∀ (st : InterpreterState) (f : String) (args : List Expression)
        (fn : HostFn) (vs : List Value) (tr tr1 : Trace) (m : String),
      fnLookup st.functions f = some fn →
      evaluateArgs st args tr = (.ok vs, tr1) →
      fn vs = .error m →
      evaluateNode st (.call f args) tr = (.error (.host m), tr1 ++ [f])) ∧
    (∀ (st : InterpreterState) (e : Expression) (tr : Trace) (m : String)
        (tr1 : Trace),
      evaluateNode st e tr = (.error (.host m), tr1) →
      evaluateNode st (.unary "!" true e) tr = (.error (.host m), tr1)) ∧
    (∀ (st : InterpreterState) (e : Expression) (tr : Trace) (msg : String)
        (tr1 : Trace),
      evaluateNode st e tr = (.error (.expr msg), tr1) →
      evaluateNode st (.unary "!" true e) tr =
        (.error (.expr ("Evaluation error: " ++ msg)), tr1)) := by
  refine ⟨fun m => rfl, fun msg => rfl, ?_, ?_, ?_, ?_⟩
  · intro st e tr
    simp [evaluateNode]
  · intro st f args fn vs tr tr1 m hf ha hm
    simp [evaluateNode, evalDispatch, hf, ha, hm, wrapErr]
  · intro st e tr m tr1 h
    simp [evaluateNode, evalDispatch, h, wrapErr]
  · intro st e tr msg tr1 h
    simp [evaluateNode, evalDispatch, h, wrapErr]

/-- Witness for C6: the throwing host function `boom` surfaces its own error
unwrapped, both at its call frame and through an enclosing unary frame,
while an evaluator-raised `UndefinedVariable` error gains one more
"Evaluation error: " prefix when crossing the same enclosing frame. -/
theorem host_error_propagation_spec_witness :
    evaluateNode
      (createInterpreterState [] [("boom", fun _ => Except.error "host failure")])
      (.call "boom" []) [] = (.error (.host "host failure"), ["boom"]) ∧
    evaluateNode
      (createInterpreterState [] [("boom", fun _ => Except.error "host failure")])
      (.unary "!" true (.call "boom" [])) [] =
      (.error (.host "host failure"), ["boom"]) ∧
    evaluateNode (createInterpreterState [] [])
      (.unary "!" true (.identifier "x")) [] =
      (.error (.expr "Evaluation error: Evaluation error: Undefined variable: x"), []) := by
  refine ⟨?_, ?_, ?_⟩
  · have h := host_error_propagation_spec.2.2.2.1
      (createInterpreterState [] [("boom", fun _ => Except.error "host failure")])
      "boom" [] (fun _ => Except.error "host failure") [] [] [] "host failure"
      (by simp [createInterpreterState, fnLookup]) (by simp [evaluateArgs]) rfl
    simpa using h
  · apply host_error_propagation_spec.2.2.2.2.1
    have h := host_error_propagation_spec.2.2.2.1
      (createInterpreterState [] [("boom", fun _ => Except.error "host failure")])
      "boom" [] (fun _ => Except.error "host failure") [] [] [] "host failure"
      (by simp [createInterpreterState, fnLookup]) (by simp [evaluateArgs]) rfl
    simpa using h
  · have h := host_error_propagation_spec.2.2.2.2.2
      (createInterpreterState [] []) (.identifier "x") []
      ("Evaluation error: " ++ ("Undefined variable: " ++ "x")) []
      (by simp [evaluateNode, evalDispatch, ctxLookup, createInterpreterState, wrapErr])
    rw [h]
    rfl

end SuperSpec
